import Mathlib

/-!
# Verification of the State-Machine orchestrator core

A shallow embedding, in Lean 4, of the core of the `State-Machine` repository:

* `core/state_machine.py` — the driver (`StateMachine.__init__`, `StateMachine.run`);
* `core/blocks/parallel_handler.py` — the parallel fan-out state;
* `core/blocks/lambda_handler.py` — the task ("lambda") state;
* `core/handlers/choice_handler.py` — the choice state (cached decision functions);
* `core/utils/parser.py` — `Utils`, `CacheHandler` and `ConditionParser`
  (the expression compiler and its on-disk cache).

Python strings are modelled as Lean `String`s with character-level operations
re-implemented over `List Char` by structural/fuel recursion so that every
definition evaluates by kernel reduction.  Python's `hashlib.sha256` is
implemented in full (over `Nat` with explicit `% 2^32`).  Dynamically generated
Python code (the decision functions emitted by `ConditionParser`) is embedded
as a small syntax tree (`GenCode`) that mirrors, constructor by constructor,
the exact text the Python source emits, together with an evaluator for the
emitted fragment.  The filesystem cache directory is modelled as an explicit
association list threaded through the operations that read and write it.
-/

/-! ## Python string primitives (character-exact, kernel-reducible) -/

/-- Python whitespace for `str.strip` / `\s`: space, tab, newline, carriage
return, vertical tab, form feed. -/
def pySpace (c : Char) : Bool :=
  c = ' ' || c = '\t' || c = '\n' || c = '\r' || c = Char.ofNat 11 || c = Char.ofNat 12

/-- Leftmost non-overlapping split on a non-empty separator (Python
`s.split(sep)`), over char lists; `fuel` bounds the scan. -/
def pySplitGo (sep : List Char) (fuel : Nat) (s : List Char) (acc : List Char) :
    List (List Char) :=
  match fuel with
  | 0 => [acc.reverse ++ s]
  | fuel + 1 =>
    match s with
    | [] => [acc.reverse]
    | c :: rest =>
      if sep.isPrefixOf (c :: rest) then
        acc.reverse :: pySplitGo sep fuel ((c :: rest).drop sep.length) []
      else
        pySplitGo sep fuel rest (c :: acc)

/-- Python `s.split(sep)` for a non-empty separator. -/
def pySplit (s sep : String) : List String :=
  (pySplitGo sep.data (s.data.length + 1) s.data []).map String.mk

/-- Python `s.count(sub)` (non-overlapping occurrences). -/
def pyCount (s sub : String) : Nat :=
  (pySplit s sub).length - 1

/-- Python `sub in s` (substring containment). -/
def hasSub (s sub : String) : Bool :=
  (pySplit s sub).length != 1

/-- Split at the first occurrence of `sub` (Python `s.split(sub, 1)` when it
matches): returns the part before and the part after. -/
def splitFirst? (s sub : String) : Option (String × String) :=
  match pySplit s sub with
  | before :: r :: rest => some (before, String.intercalate sub (r :: rest))
  | _ => none

/-- Python `s.find(sub)` restricted to the found case: character index of the
first occurrence. -/
def idxOfSub? (s sub : String) : Option Nat :=
  (splitFirst? s sub).map (fun p => p.1.length)

/-- Python `s.replace(old, new)` (all non-overlapping occurrences, `old`
non-empty), over char lists with fuel. -/
def pyReplaceGo (old new : List Char) (fuel : Nat) (s : List Char) : List Char :=
  match fuel with
  | 0 => s
  | fuel + 1 =>
    match s with
    | [] => []
    | c :: rest =>
      if old.isPrefixOf (c :: rest) then
        new ++ pyReplaceGo old new fuel ((c :: rest).drop old.length)
      else
        c :: pyReplaceGo old new fuel rest

/-- Python `s.replace(old, new)`. -/
def pyReplace (s old new : String) : String :=
  String.mk (pyReplaceGo old.data new.data (s.data.length + 1) s.data)

/-- Python `s.strip()` (strip surrounding whitespace). -/
def pyStrip (s : String) : String :=
  String.mk (((s.data.dropWhile pySpace).reverse.dropWhile pySpace).reverse)

/-- Python `s.startswith(p)`. -/
def pyStarts (s p : String) : Bool := p.data.isPrefixOf s.data

/-- Python `s.endswith(p)`. -/
def pyEnds (s p : String) : Bool := p.data.isSuffixOf s.data

/-- Python slice `s[a:]` (character based). -/
def pyDrop (s : String) (a : Nat) : String := String.mk (s.data.drop a)

/-- Python slice `s[:b]` (character based). -/
def pyTake (s : String) (b : Nat) : String := String.mk (s.data.take b)

/-- Python slice `s[a:b]` (character based). -/
def pySlice (s : String) (a b : Nat) : String := String.mk ((s.data.take b).drop a)

/-! ## JSON documents (the event/document values the system manipulates) -/

/-- JSON-like Python values: `None`, booleans, integers, strings, lists and
dicts.  (The statements exercised by the spec use no float literals.) -/
inductive JValue where
  | null
  | bool (b : Bool)
  | int (n : Int)
  | str (s : String)
  | arr (xs : List JValue)
  | obj (fields : List (String × JValue))
  deriving Repr

/-- Structural (Python `==`-like) boolean equality on `JValue`. -/
def JValue.beq : JValue → JValue → Bool
  | .null, .null => true
  | .bool a, .bool b => a == b
  | .int a, .int b => a == b
  | .str a, .str b => a == b
  | .arr xs, .arr ys => beqList xs ys
  | .obj xs, .obj ys => beqObj xs ys
  | _, _ => false
where
  beqList : List JValue → List JValue → Bool
    | [], [] => true
    | x :: xs, y :: ys => x.beq y && beqList xs ys
    | _, _ => false
  beqObj : List (String × JValue) → List (String × JValue) → Bool
    | [], [] => true
    | (k, x) :: xs, (l, y) :: ys => k == l && x.beq y && beqObj xs ys
    | _, _ => false

instance : BEq JValue := ⟨JValue.beq⟩

/-- Python truthiness of a JSON-like value (`bool(v)`). -/
def pyTruthy : JValue → Bool
  | .null => false
  | .bool b => b
  | .int n => n != 0
  | .str s => s.data != []
  | .arr xs => xs != ([] : List JValue)
  | .obj fs => !fs.isEmpty

/-! ## SHA-256 (model of Python `hashlib.sha256(...).hexdigest()`)

Words are `Nat`s reduced modulo `2^32` where overflow matters. -/

/-- Truncate to a 32-bit word. -/
def w32 (x : Nat) : Nat := x % 4294967296

/-- Rotate a 32-bit word right by `n`. -/
def rotr (n x : Nat) : Nat := (x >>> n) + w32 (x <<< (32 - n))

/-- XOR of three words. -/
def xor3 (a b c : Nat) : Nat := a ^^^ (b ^^^ c)

/-- `Ch(e,f,g)`: for each bit position, `f` where `e` is set, else `g`. -/
def sha256Ch (e f g : Nat) : Nat := g ^^^ (e &&& (f ^^^ g))

/-- `Maj(a,b,c)`: bitwise majority, as `(a ∧ b) ⊕ (c ∧ (a ⊕ b))`. -/
def sha256Maj (a b c : Nat) : Nat := (a &&& b) ^^^ (c &&& (a ^^^ b))

def bigSigma0 (x : Nat) : Nat := xor3 (rotr 2 x) (rotr 13 x) (rotr 22 x)

def bigSigma1 (x : Nat) : Nat := xor3 (rotr 6 x) (rotr 11 x) (rotr 25 x)

def smallSigma0 (x : Nat) : Nat := xor3 (rotr 7 x) (rotr 18 x) (x >>> 3)

def smallSigma1 (x : Nat) : Nat := xor3 (rotr 17 x) (rotr 19 x) (x >>> 10)

def sha256K : List Nat :=
  [1116352408, 1899447441, 3049323471, 3921009573, 961987163,
   1508970993, 2453635748, 2870763221, 3624381080, 310598401,
   607225278, 1426881987, 1925078388, 2162078206, 2614888103,
   3248222580, 3835390401, 4022224774, 264347078, 604807628,
   770255983, 1249150122, 1555081692, 1996064986, 2554220882,
   2821834349, 2952996808, 3210313671, 3336571891, 3584528711,
   113926993, 338241895, 666307205, 773529912, 1294757372,
   1396182291, 1695183700, 1986661051, 2177026350, 2456956037,
   2730485921, 2820302411, 3259730800, 3345764771, 3516065817,
   3600352804, 4094571909, 275423344, 430227734, 506948616,
   659060556, 883997877, 958139571, 1322822218, 1537002063,
   1747873779, 1955562222, 2024104815, 2227730452, 2361852424,
   2428436474, 2756734187, 3204031479, 3329325298]

/-- Big-endian 64-bit length encoding (8 bytes). -/
def be64 (n : Nat) : List Nat :=
  [(n >>> 56) % 256, (n >>> 48) % 256, (n >>> 40) % 256, (n >>> 32) % 256,
   (n >>> 24) % 256, (n >>> 16) % 256, (n >>> 8) % 256, n % 256]

/-- SHA-256 padding: append `0x80`, zeros to 56 mod 64, then the bit length. -/
def sha256Pad (msg : List Nat) : List Nat :=
  let L := msg.length
  let k := (119 - L % 64) % 64
  msg ++ [0x80] ++ List.replicate k 0 ++ be64 (8 * L)

/-- Group bytes into big-endian 32-bit words. -/
def bytesToWords : List Nat → List Nat
  | b0 :: b1 :: b2 :: b3 :: rest => (((b0 * 256 + b1) * 256 + b2) * 256 + b3) :: bytesToWords rest
  | _ => []

/-- Split a word list into 16-word blocks (input length is a multiple of 16). -/
def blocks16 (fuel : Nat) (ws : List Nat) : List (List Nat) :=
  match fuel, ws with
  | 0, _ => []
  | _, [] => []
  | fuel + 1, ws => ws.take 16 :: blocks16 fuel (ws.drop 16)

/-- Message-schedule extension; `rev` holds the schedule so far, most recent
word first, and 48 steps are performed. -/
def schedExtend (fuel : Nat) (rev : List Nat) : List Nat :=
  match fuel with
  | 0 => rev
  | fuel + 1 =>
    let wt := w32 (smallSigma1 (rev.getD 1 0) + rev.getD 6 0 +
      smallSigma0 (rev.getD 14 0) + rev.getD 15 0)
    schedExtend fuel (wt :: rev)

/-- The 64-word message schedule of one block. -/
def sha256Schedule (block : List Nat) : List Nat :=
  (schedExtend 48 block.reverse).reverse

/-- Working state of the compression function. -/
structure Hash8 where
  a : Nat
  b : Nat
  c : Nat
  d : Nat
  e : Nat
  f : Nat
  g : Nat
  h : Nat
  deriving Repr, DecidableEq

def sha256Round (st : Hash8) (kw : Nat × Nat) : Hash8 :=
  let t1 := st.h + bigSigma1 st.e + sha256Ch st.e st.f st.g + kw.1 + kw.2
  let t2 := bigSigma0 st.a + sha256Maj st.a st.b st.c
  { a := w32 (t1 + t2), b := st.a, c := st.b, d := st.c,
    e := w32 (st.d + t1), f := st.e, g := st.f, h := st.g }

def sha256Compress (h : Hash8) (block : List Nat) : Hash8 :=
  let st := (sha256K.zip (sha256Schedule block)).foldl sha256Round h
  { a := w32 (h.a + st.a), b := w32 (h.b + st.b), c := w32 (h.c + st.c),
    d := w32 (h.d + st.d), e := w32 (h.e + st.e), f := w32 (h.f + st.f),
    g := w32 (h.g + st.g), h := w32 (h.h + st.h) }

def sha256H0 : Hash8 :=
  { a := 1779033703, b := 3144134277, c := 1013904242, d := 2773480762,
    e := 1359893119, f := 2600822924, g := 528734635, h := 1541459225 }

def hexDigit (n : Nat) : Char := Char.ofNat (if n < 10 then 48 + n else 87 + n)

def hex2 (n : Nat) : String := String.mk [hexDigit ((n >>> 4) % 16), hexDigit (n % 16)]

def hex4 (n : Nat) : String := hex2 ((n >>> 8) % 256) ++ hex2 (n % 256)

def hex8 (n : Nat) : String := hex4 ((n >>> 16) % 65536) ++ hex4 (n % 65536)

/-- SHA-256 digest of a byte sequence, as a lowercase hex string. -/
def sha256hex (msg : List Nat) : String :=
  let final := (blocks16 (msg.length + 9) (bytesToWords (sha256Pad msg))).foldl
    sha256Compress sha256H0
  hex8 final.a ++ hex8 final.b ++ hex8 final.c ++ hex8 final.d ++
    hex8 final.e ++ hex8 final.f ++ hex8 final.g ++ hex8 final.h

/-- UTF-8 encoding of one character (Python `str.encode()`). -/
def utf8Char (c : Char) : List Nat :=
  let n := c.toNat
  if n < 0x80 then [n]
  else if n < 0x800 then [0xC0 + (n >>> 6), 0x80 + n % 64]
  else if n < 0x10000 then [0xE0 + (n >>> 12), 0x80 + (n >>> 6) % 64, 0x80 + n % 64]
  else [0xF0 + (n >>> 18), 0x80 + (n >>> 12) % 64, 0x80 + (n >>> 6) % 64, 0x80 + n % 64]

/-- UTF-8 encoding of a string. -/
def utf8 (s : String) : List Nat := (s.data.map utf8Char).flatten

/-! ## Canonical JSON serialization (model of `json.dumps(..., sort_keys=True)`) -/

/-- One character of a JSON string per `json.dumps` with its default
`ensure_ascii=True`. -/
def jsonEscapeChar (c : Char) : String :=
  let n := c.toNat
  if c = '"' then "\\\""
  else if c = '\\' then "\\\\"
  else if c = '\n' then "\\n"
  else if c = '\t' then "\\t"
  else if c = '\r' then "\\r"
  else if n = 8 then "\\b"
  else if n = 12 then "\\f"
  else if n < 0x20 then "\\u" ++ hex4 n
  else if n < 0x7F then String.mk [c]
  else if n < 0x10000 then "\\u" ++ hex4 n
  else
    "\\u" ++ hex4 (0xD800 + ((n - 0x10000) >>> 10)) ++
      "\\u" ++ hex4 (0xDC00 + (n - 0x10000) % 1024)

/-- A JSON string literal per `json.dumps`. -/
def jsonStr (s : String) : String :=
  "\"" ++ String.join (s.data.map jsonEscapeChar) ++ "\""

/-- `CacheHandler.generate_hash`, the serialization step: the JSON dump of
`{'choice_name': name, 'conditions': conditions}` with `sort_keys=True` and
default separators (`'choice_name'` sorts before `'conditions'`). -/
def canonicalSerialization (name : String) (conditions : List String) : String :=
  "\x7b\"choice_name\": " ++ jsonStr name ++ ", \"conditions\": [" ++
    String.intercalate ", " (conditions.map jsonStr) ++ "]\x7d"

/-- `CacheHandler.generate_hash`: SHA-256 hex digest of the canonical
serialization (`parser.py` lines 127-139). -/
def generate_hash (name : String) (conditions : List String) : String :=
  sha256hex (utf8 (canonicalSerialization name conditions))

/-! ## `Utils` extraction helpers (`core/utils/parser.py`) -/

/-- Scanner for `Utils.extract_constants`: all regex matches of `\#\S*`
(leftmost, non-overlapping, maximal runs of non-whitespace after a `#`). -/
def extractConstantsGo (fuel : Nat) (s : List Char) : List String :=
  match fuel, s with
  | 0, _ => []
  | _, [] => []
  | fuel + 1, c :: rest =>
    if c = '#' then
      String.mk ('#' :: rest.takeWhile (fun d => !pySpace d)) ::
        extractConstantsGo fuel (rest.dropWhile (fun d => !pySpace d))
    else
      extractConstantsGo fuel rest

/-- `Utils.extract_constants` (parser.py lines 19-26). -/
def extractConstants (text : String) : List String :=
  extractConstantsGo (text.data.length + 1) text.data

/-- Scanner for `Utils.extract_jsonpath_variables`: matches of `\$\.\S*`. -/
def extractJsonpathGo (fuel : Nat) (s : List Char) : List String :=
  match fuel, s with
  | 0, _ => []
  | _, [] => []
  | fuel + 1, c :: rest =>
    match rest with
    | d :: rest2 =>
      if c = '$' && d = '.' then
        String.mk ('$' :: '.' :: rest2.takeWhile (fun e => !pySpace e)) ::
          extractJsonpathGo fuel (rest2.dropWhile (fun e => !pySpace e))
      else
        extractJsonpathGo fuel rest
    | [] => []

/-- `Utils.extract_jsonpath_variables` (parser.py lines 28-34); Python's
`list(set(...))` order is unspecified, modelled as first-occurrence
deduplication (the order only affects the emitted parameter order, which is
semantically inert because the wrapper calls the function by keyword). -/
def extractJsonpathVariables (text : String) : List String :=
  (extractJsonpathGo (text.data.length + 1) text.data).eraseDups

/-- Parameter-name sanitization `re.sub(r'[^a-zA-Z0-9_]', '_', p[1:])`. -/
def sanitizeParam (jsonpath : String) : String :=
  String.mk ((jsonpath.data.drop 1).map
    (fun c => if c.isAlphanum || c = '_' then c else '_'))

/-- `Utils.build_jsonpath_params_mapping` (parser.py lines 60-69). -/
def buildJsonpathParamsMapping (paramns : List String) : List (String × String) :=
  paramns.map (fun jp => (sanitizeParam jp, jp))

def isIdentStart (c : Char) : Bool := c.isAlpha || c = '_'

def isIdentChar (c : Char) : Bool := c.isAlphanum || c = '_'

/-- Scanner for `Utils.remove_single_word_parentheses`: rewrites every
`\(\s*([a-zA-Z_][a-zA-Z0-9_]*)\s*\)` to the bare identifier. -/
def rswpGo (fuel : Nat) (s : List Char) : List Char :=
  match fuel, s with
  | 0, _ => s
  | _, [] => []
  | fuel + 1, c :: rest =>
    if c = '(' then
      let afterWs := rest.dropWhile (fun d => pySpace d)
      match afterWs with
      | d :: ds =>
        if isIdentStart d then
          let ident := d :: ds.takeWhile isIdentChar
          let rest2 := (ds.dropWhile isIdentChar).dropWhile (fun e => pySpace e)
          match rest2 with
          | ')' :: tail => ident ++ rswpGo fuel tail
          | _ => c :: rswpGo fuel rest
        else c :: rswpGo fuel rest
      | [] => c :: rswpGo fuel rest
    else c :: rswpGo fuel rest

/-- `Utils.remove_single_word_parentheses` (parser.py lines 71-75). -/
def removeSingleWordParens (text : String) : String :=
  String.mk (rswpGo (text.data.length + 1) text.data)

/-! ## `ConditionParser` text transformations -/

/-- Greedy parse of the dotted tail `[a-zA-Z_]\w*(?:\.[a-zA-Z_]\w*)*`
starting at `s`; returns the matched content and the remainder. -/
def dottedSegsGo (fuel : Nat) (acc : List Char) (s : List Char) : List Char × List Char :=
  match fuel with
  | 0 => (acc, s)
  | fuel + 1 =>
    match s with
    | '.' :: d :: rest =>
      if isIdentStart d then
        dottedSegsGo fuel (acc ++ '.' :: d :: rest.takeWhile isIdentChar)
          (rest.dropWhile isIdentChar)
      else (acc, s)
    | _ => (acc, s)

/-- Scanner for the JSONPath-to-parameter rewrite
`\$\.([a-zA-Z_]\w*(?:\.[a-zA-Z_]\w*)*)` → `_` + content with dots replaced. -/
def convertGo (fuel : Nat) (s : List Char) : List Char :=
  match fuel, s with
  | 0, _ => s
  | _, [] => []
  | fuel + 1, c :: rest =>
    match rest with
    | d :: e :: rest2 =>
      if c = '$' && d = '.' && isIdentStart e then
        let seg1 := e :: rest2.takeWhile isIdentChar
        let (content, after) := dottedSegsGo (rest2.length + 1) seg1
          (rest2.dropWhile isIdentChar)
        ('_' :: content.map (fun x => if x = '.' then '_' else x)) ++ convertGo fuel after
      else c :: convertGo fuel rest
    | _ => c :: convertGo fuel rest

/-- `ConditionParser._convert_jsonpath_to_params` (parser.py lines 498-516):
rewrite JSONPaths to parameter names, then the keyword terms
`' true'/' false'/' null'` to their Python spellings. -/
def convertJsonpathToParams (condition : String) : String :=
  let c1 := String.mk (convertGo (condition.data.length + 1) condition.data)
  pyReplace (pyReplace (pyReplace c1 " true" " True") " false" " False") " null" " None"

/-- One `re.sub((\w+)\s+<op>\s+('[^']*'|\w+), \1.<py>(\2))` pass used for
`starts_with`/`ends_with`, modelled for single-space-separated text. -/
def rewriteStrOp (fuel : Nat) (opName pyName : String) (text : String) : String :=
  match fuel with
  | 0 => text
  | fuel + 1 =>
    match splitFirst? text (" " ++ opName ++ " ") with
    | none => text
    | some (l, r) =>
      let lword := (l.data.reverse.takeWhile isIdentChar).reverse
      let lpre := (l.data.reverse.drop lword.length).reverse
      let rtok :=
        match r.data with
        | '\'' :: rest =>
          match splitFirst? (String.mk rest) "'" with
          | some (mid, _) => some ('\'' :: mid.data ++ ['\''])
          | none => none
        | _ =>
          let w := r.data.takeWhile isIdentChar
          if w = [] then none else some w
      match rtok with
      | some rt =>
        if lword = [] then text
        else
          String.mk lpre ++ String.mk lword ++ "." ++ pyName ++ "(" ++ String.mk rt ++ ")" ++
            rewriteStrOp fuel opName pyName (pyDrop r rt.length)
      | none => text

/-- `ConditionParser._op_substitution` (parser.py lines 522-561): JSONPaths to
parameters, `contains` swap, `starts_with`/`ends_with` rewrites, then the six
comparison keywords.  The regexes use `\s+` around keywords; statements are
modelled single-space-separated as the spec's programs are. -/
def opSubstitution (condition : String) : String :=
  let text := convertJsonpathToParams condition
  let text :=
    match splitFirst? (pyStrip text) " contains " with
    | some (l, r) => if r = "" then text else pyStrip r ++ " in " ++ pyStrip l
    | none => text
  let text := rewriteStrOp (text.data.length + 1) "starts_with" "startswith" text
  let text := rewriteStrOp (text.data.length + 1) "ends_with" "endswith" text
  let text := pyReplace text " gt " " > "
  let text := pyReplace text " lt " " < "
  let text := pyReplace text " eq " " == "
  let text := pyReplace text " neq " " != "
  let text := pyReplace text " gte " " >= "
  let text := pyReplace text " lte " " <= "
  text

/-- The `while 'exist ' in condition` rewrite loop of
`ConditionParser._process_statement` (parser.py lines 423-428): each
`exist <path>` becomes `<path> != '__not_matches__'`. -/
def substExistGo (fuel : Nat) (condition : String) : String :=
  match fuel with
  | 0 => condition
  | fuel + 1 =>
    match splitFirst? condition "exist " with
    | none => condition
    | some (_, post) =>
      let jsPath := String.mk (post.data.takeWhile (fun c => c ≠ ' '))
      let term := jsPath ++ " != '__not_matches__'"
      let subst := "exist " ++ jsPath
      substExistGo fuel (pyReplace condition subst term)

def substExist (condition : String) : String :=
  substExistGo (condition.data.length + 1) condition

/-! ## `ConditionParser._process_statement` and the emitted code -/

/-- `ConditionParser._extract_nested_statement_parts` (parser.py lines
452-496): the regex `when\s+(.*?)\s+then\s+(.*)` is modelled for
single-space-separated statements; the nested-`when` branch re-extracts the
parts with `str.find`, exactly as the source does. -/
def extractStatementParts (statement : String) : String × String :=
  match splitFirst? statement "when " with
  | none => ("", statement)
  | some (_, afterWhen) =>
    match splitFirst? afterWhen " then " with
    | none => ("", statement)
    | some (c, t) =>
      let condition0 := pyStrip c
      let thenPart := pyStrip t
      let condition :=
        if hasSub condition0 "$." then convertJsonpathToParams condition0 else condition0
      if hasSub thenPart "when" then
        match idxOfSub? statement "when" with
        | none => (condition, thenPart)
        | some whenPos =>
          match idxOfSub? (pyDrop statement (whenPos + 4)) "then" with
          | none => (condition, thenPart)
          | some j =>
            let firstThen := whenPos + 4 + j
            (pyStrip (pySlice statement (whenPos + 4) firstThen),
             pyStrip (pyDrop statement (firstThen + 4)))
      else (condition, thenPart)

/-- `ConditionParser.add_constants_or_literals` (parser.py lines 400-409),
reduced to the returned expression text: `#tag` yields the local-variable
name, a single-quoted literal with no inner quote yields itself, anything
else yields `none`; Python raises `IndexError` on an empty statement. -/
def addConstantsOrLiterals (statement : String) : Except String (Option String) :=
  if pyStarts statement "#" then
    .ok (some (pyReplace (pyDrop statement 1) "-" "_"))
  else
    match statement.data with
    | [] => .error "IndexError: string index out of range"
    | c :: _ =>
      if c = '\'' && statement.data.getLastD ' ' = '\'' then
        if hasSub (pySlice statement 1 (statement.data.length - 1)) "'" then .ok none
        else .ok (some statement)
      else .ok none

/-- The shape of the Python text emitted by
`ConditionParser._process_statement`.  Each constructor is one emission site:
`ret e` is `"{indent}return {e}\n"`; `iff c body` is `"{indent}if {c}:\n"`
followed by the body one level deeper (falling through when false);
`ifRet c t e` is `"{indent}if {c}:\n{indent}    return {t}\n{indent}return
{e}\n"` (the else-return is unconditional at the same indent); `ifEmpty c`
is an `if` whose body the source fails to emit (invalid Python). -/
inductive GenCode where
  | ret (expr : String)
  | iff (cond : String) (body : GenCode)
  | ifRet (cond : String) (thenExpr elseExpr : String)
  | ifEmpty (cond : String)
  deriving Repr, DecidableEq

/-- `ConditionParser._process_statement` (parser.py lines 411-450), emitting
`GenCode` instead of indented text.  `fuel` bounds the nesting recursion
(`then_part` is strictly shorter than `statement`). -/
def processStatement (fuel : Nat) (statement : String) : Except String GenCode :=
  match fuel with
  | 0 => .error "RecursionError"
  | fuel + 1 =>
    match addConstantsOrLiterals statement with
    | .error e => .error e
    | .ok (some expr) => .ok (.ret expr)
    | .ok none =>
      let parts := extractStatementParts statement
      let thenPart := parts.2
      let condition := removeSingleWordParens (substExist (opSubstitution parts.1))
      if hasSub thenPart "when" then
        match processStatement fuel thenPart with
        | .error e => .error e
        | .ok body => .ok (.iff condition body)
      else if hasSub thenPart " else " then
        match pySplit thenPart " else " with
        | [t, e] =>
          let tExpr := if pyStarts t "#" then pyReplace (pyDrop t 1) "-" "_" else t
          let eExpr := if pyStarts e "#" then pyReplace (pyDrop e 1) "-" "_" else e
          .ok (.ifRet condition tExpr eExpr)
        | _ => .error ("ValueError: too many values to unpack: " ++ thenPart)
      else
        match addConstantsOrLiterals thenPart with
        | .error e => .error e
        | .ok (some expr) => .ok (.iff condition (.ret expr))
        | .ok none => .ok (.ifEmpty condition)

/-- The final-statement malformation checks of
`ConditionParser._if_then_else_builder` (parser.py lines 384-394): exactly
one `'then '` without `' else '` is malformed, and more than one `'then '`
is nested-without-default. -/
def lastCheck (condition : String) : Except String Unit :=
  let thenCount := pyCount condition "then "
  if thenCount = 1 then
    if hasSub condition " else " then .ok ()
    else .error ("Malformation of the last condition: " ++ condition)
  else if thenCount > 1 then
    .error ("The final condition has nested conditions, without a default value: " ++ condition)
  else .ok ()

/-- The statement loop of `ConditionParser._if_then_else_builder` (parser.py
lines 377-398): every statement is processed in order and the final one is
checked by `lastCheck` first. -/
def ifThenElseGo : List String → Except String (List GenCode)
  | [] => .ok []
  | [last] =>
    match lastCheck last with
    | .error e => .error e
    | .ok () =>
      match processStatement (last.data.length + 1) last with
      | .error e => .error e
      | .ok b => .ok [b]
  | c :: rest =>
    match processStatement (c.data.length + 1) c with
    | .error e => .error e
    | .ok b =>
      match ifThenElseGo rest with
      | .error e => .error e
      | .ok bs => .ok (b :: bs)

/-- `ConditionParser._constants_builder` (parser.py lines 363-375): one local
binding `{tag with - → _} = '{states[tag].name}'` per first occurrence of a
`#tag`; a tag missing from `states` raises `KeyError`.  The `states` table
maps each tag to the referenced state's `name` (the source reads
`self.states[c]['name']`). -/
def constantsBuilder (states : List (String × String)) (constants : List String) :
    Except String (List (String × String)) :=
  go ((constants.map (fun c => pyDrop c 1)).eraseDups)
where
  go : List String → Except String (List (String × String))
    | [] => .ok []
    | c :: rest =>
      match states.lookup c with
      | none => .error ("KeyError: " ++ c)
      | some nm =>
        match go rest with
        | .error e => .error e
        | .ok bs => .ok ((pyReplace c "-" "_", nm) :: bs)

/-! ## Semantics of the emitted Python fragment

The decision functions the parser emits use only: local-name references,
single-quoted string literals, integer literals, `True`/`False`/`None`,
the comparison operators produced by `_op_substitution`, membership `in`,
and `and`/`or`/`not`.  The evaluator below interprets exactly that fragment;
anything outside it evaluates to an error, as the Python interpreter would
raise on an undefined name. -/

def isIdent (s : String) : Bool :=
  match s.data with
  | [] => false
  | c :: rest => isIdentStart c && rest.all isIdentChar

def digitsToNat (ds : List Char) : Nat :=
  ds.foldl (fun acc c => acc * 10 + (c.toNat - 48)) 0

/-- An atomic expression of the emitted fragment: keyword constant,
identifier (looked up in the function's local scope), quoted string literal,
or integer literal. -/
def evalExpr (env : List (String × JValue)) (e0 : String) : Except String JValue :=
  let e := pyStrip e0
  if e = "True" then .ok (.bool true)
  else if e = "False" then .ok (.bool false)
  else if e = "None" then .ok .null
  else if isIdent e then
    match env.lookup e with
    | some v => .ok v
    | none => .error ("NameError: name " ++ e ++ " is not defined")
  else
    match e.data with
    | '\'' :: rest =>
      if rest.getLastD ' ' = '\'' && rest.length ≥ 1 then
        .ok (.str (String.mk rest.dropLast))
      else .error ("SyntaxError: " ++ e)
    | '-' :: ds =>
      if ds ≠ [] && ds.all Char.isDigit then .ok (.int (-(digitsToNat ds : Int)))
      else .error ("SyntaxError: " ++ e)
    | ds =>
      if ds ≠ [] && ds.all Char.isDigit then .ok (.int (digitsToNat ds))
      else .error ("SyntaxError: " ++ e)

/-- Lexicographic order on strings (Python `<` on `str`). -/
def charsLt : List Char → List Char → Bool
  | [], [] => false
  | [], _ :: _ => true
  | _ :: _, [] => false
  | a :: as, b :: bs => if a < b then true else if b < a then false else charsLt as bs

/-- Python ordering comparison; defined on two numbers or two strings,
`TypeError` otherwise (booleans compare as the integers 0/1). -/
def pyLt : JValue → JValue → Except String Bool
  | .int a, .int b => .ok (a < b)
  | .bool a, .int b => .ok ((if a then 1 else 0 : Int) < b)
  | .int a, .bool b => .ok (a < (if b then 1 else 0 : Int))
  | .bool a, .bool b => .ok ((if a then 1 else 0 : Int) < (if b then 1 else 0))
  | .str a, .str b => .ok (charsLt a.data b.data)
  | _, _ => .error "TypeError: unorderable types"

/-- Python `l in r` (membership: substring, list element, dict key). -/
def pyIn (l r : JValue) : Except String Bool :=
  match r with
  | .str s =>
    match l with
    | .str sub => .ok (hasSub s sub)
    | _ => .error "TypeError: in requires a string left operand"
  | .arr xs => .ok (xs.any (fun x => x == l))
  | .obj fs =>
    match l with
    | .str k => .ok (fs.any (fun f => f.1 == k))
    | _ => .error "TypeError: unhashable key model"
  | _ => .error "TypeError: argument is not iterable"

/-- Dispatch of one binary comparison of the emitted fragment. -/
def pyCompare (op : String) (l r : JValue) : Except String Bool :=
  if op = " > " then pyLt r l
  else if op = " < " then pyLt l r
  else if op = " >= " then (pyLt l r).map (!·)
  else if op = " <= " then (pyLt r l).map (!·)
  else if op = " == " then .ok (l == r)
  else if op = " != " then .ok (!(l == r))
  else if op = " in " then pyIn l r
  else .error ("unknown operator " ++ op)

def cmpOps : List String := [" >= ", " <= ", " > ", " < ", " == ", " != ", " in "]

/-- A comparison atom: the first operator found splits the expression; an
atom with no operator is evaluated for truthiness (`if <expr>:`). -/
def evalCmpGo (env : List (String × JValue)) (c : String) :
    List String → Except String Bool
  | [] => (evalExpr env c).map pyTruthy
  | op :: rest =>
    match splitFirst? c op with
    | some (l, r) =>
      match evalExpr env l, evalExpr env r with
      | .ok lv, .ok rv => pyCompare op lv rv
      | .error e, _ => .error e
      | _, .error e => .error e
    | none => evalCmpGo env c rest

/-- Conditions of the emitted fragment: `or` (lowest), `and`, prefix `not`,
then a comparison atom — Python's precedence for the emitted operators. -/
def evalCondGo (env : List (String × JValue)) : Nat → String → Except String Bool
  | 0, _ => .error "RecursionError"
  | fuel + 1, c =>
    match splitFirst? c " or " with
    | some (l, r) =>
      match evalCondGo env fuel l with
      | .ok true => .ok true
      | .ok false => evalCondGo env fuel r
      | .error e => .error e
    | none =>
      match splitFirst? c " and " with
      | some (l, r) =>
        match evalCondGo env fuel l with
        | .ok true => evalCondGo env fuel r
        | .ok false => .ok false
        | .error e => .error e
      | none =>
        let ct := pyStrip c
        if pyStarts ct "not " then
          (evalCondGo env fuel (pyDrop ct 4)).map (!·)
        else
          evalCmpGo env ct cmpOps

def evalCond (env : List (String × JValue)) (c : String) : Except String Bool :=
  evalCondGo env (c.data.length + 1) c

/-- Execution of one emitted block: `some v` is `return v`, `none` is
fall-through to the next statement. -/
def runGenCode (env : List (String × JValue)) : GenCode → Except String (Option JValue)
  | .ret e => (evalExpr env e).map some
  | .iff c body =>
    match evalCond env c with
    | .ok true => runGenCode env body
    | .ok false => .ok none
    | .error e => .error e
  | .ifRet c t e =>
    match evalCond env c with
    | .ok true => (evalExpr env t).map some
    | .ok false => (evalExpr env e).map some
    | .error er => .error er
  | .ifEmpty _ => .error "SyntaxError: expected an indented block"

/-- The emitted function body: statements in order, first `return` wins; a
function that falls off the end returns Python `None`. -/
def runBlocks (env : List (String × JValue)) : List GenCode → Except String (Option JValue)
  | [] => .ok none
  | b :: rest =>
    match runGenCode env b with
    | .ok (some v) => .ok (some v)
    | .ok none => runBlocks env rest
    | .error e => .error e

/-! ## JSONPath evaluation (`Utils.jsonpath_query`, parser.py lines 36-58) -/

/-- The dotted fragment of `jsonpath_ng.parse` that the system's statements
use (`$.a.b…`); `none` models a parse failure (→ `ValueError`). -/
def parseDottedPath (expr : String) : Option (List String) :=
  if pyStarts expr "$." then
    let segs := pySplit (pyDrop expr 2) "."
    if segs.all isIdent then some segs else none
  else none

/-- `jsonpath_expr.find(obj)`: the matches of a dotted path against a
document (zero or one for this fragment). -/
def jsonpathFind (doc : JValue) : List String → List JValue
  | [] => [doc]
  | f :: rest =>
    match doc with
    | .obj fields =>
      match fields.lookup f with
      | some v => jsonpathFind v rest
      | none => []
    | _ => []

/-- The result shaping of `Utils.jsonpath_query` from the match list: zero
matches → the absent-sentinel `'__not_matches__'`, one match → its value,
several → the ordered list of values. -/
def queryOfMatches : List JValue → JValue
  | [] => .str "__not_matches__"
  | [v] => v
  | vs => .arr vs

/-- `Utils.jsonpath_query`: parse (→ `ValueError` on failure), find, shape. -/
def jsonpath_query (doc : JValue) (expr : String) : Except String JValue :=
  match parseDottedPath expr with
  | none => .error ("Invalid JSONPath expression: " ++ expr)
  | some fields => .ok (queryOfMatches (jsonpathFind doc fields))

/-- `Utils.create_jsonpath_wrapper` (parser.py lines 77-107): extract each
parameter by JSONPath (a `ValueError` stores `None`), then call the cached
function with the keyword arguments. -/
def jsonpathWrapper (jsonpathParams : List (String × String))
    (fn : List (String × JValue) → Except String (Option JValue))
    (data : JValue) : Except String (Option JValue) :=
  fn (jsonpathParams.map (fun p =>
    match jsonpath_query data p.2 with
    | .ok v => (p.1, v)
    | .error _ => (p.1, JValue.null)))

/-! ## The on-disk cache (`CacheHandler`), as an explicit directory state -/

/-- A compiled artifact: the emitted module reduced to its one function —
its name (`def {safe_name}(…)`), the constant bindings at the top of the
body, and the statement blocks. -/
structure Artifact where
  fnName : String
  constants : List (String × String)
  blocks : List GenCode
  deriving Repr, DecidableEq

/-- A file of the `conditions_cache` directory: either a generated `.py`
artifact or a `*_metadata.json` file with the fields the source reads
(`hash`, `choice_name`, `cache_file`, `jsonpath_params`; `created_at` is
written but never read and is elided). -/
inductive CEntry where
  | art (a : Artifact)
  | meta (hash : String) (choiceName : String) (cacheFile : String)
      (jsonpathParams : List (String × String))
  deriving Repr, DecidableEq

/-- The cache directory: filename ↦ content.  All paths live in the single
`conditions_cache` directory, so the constant directory prefix is elided. -/
abbrev CacheDir := List (String × CEntry)

def getFile : CacheDir → String → Option CEntry
  | [], _ => none
  | p :: rest, k => if p.1 == k then some p.2 else getFile rest k

/-- Write (create or overwrite) one file: replace the entry of an existing
filename, else append the new file. -/
def setFile : CacheDir → String → CEntry → CacheDir
  | [], k, v => [(k, v)]
  | p :: rest, k, v => if p.1 == k then (k, v) :: rest else p :: setFile rest k v

/-- `self.name.replace('-', '_')`. -/
def safeName (name : String) : String := pyReplace name "-" "_"

/-- `CacheHandler._get_path` (parser.py lines 185-195). -/
def getPath (name filename : String) : String := safeName name ++ "_" ++ filename

/-- `CacheHandler._get_cache_file_path` (lines 181-183). -/
def cacheFilePath (name hash : String) : String := getPath name (pyTake hash 8 ++ ".py")

def metadataPath (name : String) : String := getPath name "metadata.json"

/-- `CacheHandler.is_cache_valid` (parser.py lines 164-179): the hash-named
artifact file must exist and the metadata hash must equal the current
content hash; a missing or malformed metadata file yields `None`.  Returns
the metadata fields the callers use. -/
def is_cache_valid (dir : CacheDir) (name hash : String) :
    Option (String × List (String × String)) :=
  if (getFile dir (cacheFilePath name hash)).isNone then none
  else
    match getFile dir (metadataPath name) with
    | some (.meta h _ cf ps) => if h == hash then some (cf, ps) else none
    | _ => none

/-- `CacheHandler.get_path_from_cache` (parser.py lines 141-153): valid
metadata whose referenced artifact file is present and non-empty. -/
def get_path_from_cache (dir : CacheDir) (name hash : String) : Option String :=
  match is_cache_valid dir name hash with
  | some (cf, _) =>
    match getFile dir cf with
    | some (.art _) => some cf
    | _ => none
  | none => none

/-- `CacheHandler._cleanup_old_cache` (parser.py lines 227-245): remove every
file whose name starts with `{safe_choice_name}_`, ends in `.py`, and does
not start with `{safe_choice_name}_{hash[:8]}`. -/
def cleanup_old_cache (dir : CacheDir) (name hash : String) : CacheDir :=
  dir.filter (fun p =>
    !(pyStarts p.1 (safeName name ++ "_") && pyEnds p.1 ".py" &&
      !pyStarts p.1 (safeName name ++ "_" ++ pyTake hash 8)))

/-- `CacheHandler._save_to_cache` (parser.py lines 197-225): purge old
artifacts, then write the artifact file and the metadata file; returns the
artifact path and the directory after the save. -/
def save_to_cache (dir : CacheDir) (name hash : String) (a : Artifact)
    (jsonpathParams : List (String × String)) : String × CacheDir :=
  let dir1 := cleanup_old_cache dir name hash
  let cfp := cacheFilePath name hash
  let dir2 := setFile dir1 cfp (.art a)
  (cfp, setFile dir2 (metadataPath name) (.meta hash name cfp jsonpathParams))

/-- Errors of `CacheHandler.load_cached_function`, kept apart because
`Choice.__init__` catches `FileNotFoundError` specially. -/
inductive LoadErr where
  | fileNotFound (msg : String)
  | importErr (msg : String)
  deriving Repr, DecidableEq

/-- `CacheHandler.load_cached_function` (parser.py lines 260-286): validate
the cache, import the artifact module, fetch the function named
`{name.replace('-','_')}`, and wrap it with the JSONPath shim from the
metadata. -/
def load_cached_function (dir : CacheDir) (name hash : String) :
    Except LoadErr (JValue → Except String (Option JValue)) :=
  match is_cache_valid dir name hash with
  | none => .error (.fileNotFound ("No metadata found for choice: " ++ name))
  | some (cf, ps) =>
    match getFile dir cf with
    | some (.art a) =>
      if a.fnName == safeName name then
        .ok (jsonpathWrapper ps (fun params =>
          runBlocks ((a.constants.map (fun b => (b.1, JValue.str b.2))) ++ params) a.blocks))
      else .error (.importErr ("AttributeError: module has no attribute " ++ safeName name))
    | _ => .error (.importErr ("Could not load spec from " ++ cf))

/-! ## `ConditionParser.parse` and `Choice.__init__` -/

/-- `ConditionParser.parse` (parser.py lines 310-348): hash, cache lookup,
else extract parameters and constants, build the function, save.  Returns
the artifact path (or the raised compile error) together with the cache
directory after the call — on every error path the directory is returned
unchanged, because the only write happens in `_save_to_cache`. -/
def conditionParserParse (name : String) (conditions : List String)
    (states : List (String × String)) (dir : CacheDir) :
    Except String String × CacheDir :=
  let hash := generate_hash name conditions
  match get_path_from_cache dir name hash with
  | some p => (.ok p, dir)
  | none =>
    let paramns := ((conditions.map extractJsonpathVariables).flatten).eraseDups
    let constants := (conditions.map extractConstants).flatten
    match constantsBuilder states constants with
    | .error e => (.error e, dir)
    | .ok constBindings =>
      match ifThenElseGo conditions with
      | .error e => (.error e, dir)
      | .ok blks =>
        let jsonpathParams := buildJsonpathParamsMapping paramns
        let (p, dir') := save_to_cache dir name hash
          ⟨safeName name, constBindings, blks⟩ jsonpathParams
        (.ok p, dir')

/-- Result of `Choice.__init__`: either a loaded decision function, or the
retry loop exhausted with `jsonpath_wrapper` still `None`. -/
inductive ChoiceBuilt where
  | loaded (w : JValue → Except String (Option JValue))
  | unloaded

def loadErrMsg : LoadErr → String
  | .fileNotFound m => m
  | .importErr m => m

/-- `Choice.__init__` (handlers/choice_handler.py lines 35-58).
`CacheHandler.__init__` leaves `content_hash = ''`, and only
`ConditionParser.parse` calls `generate_hash`, so the first load attempt
runs with the empty hash and the loads after a parse run with the real one.
A compile error raised inside the `except FileNotFoundError` handler
propagates as-is; other load errors become `ChoiceInitializationError`
(a class the source references but never defines in `core/exceptions.py`,
modelled here by its message). -/
def choiceBuild (name : String) (statements : List String)
    (states : List (String × String)) (dir : CacheDir) :
    Except String ChoiceBuilt × CacheDir :=
  match load_cached_function dir name "" with
  | .ok w => (.ok (.loaded w), dir)
  | .error (.importErr m) => (.error ("Failed to initialize choice: " ++ m), dir)
  | .error (.fileNotFound _) =>
    match conditionParserParse name statements states dir with
    | (.error e, dir1) => (.error e, dir1)
    | (.ok _, dir1) =>
      match load_cached_function dir1 name (generate_hash name statements) with
      | .ok w => (.ok (.loaded w), dir1)
      | .error (.importErr m) => (.error ("Failed to initialize choice: " ++ m), dir1)
      | .error (.fileNotFound _) =>
        match conditionParserParse name statements states dir1 with
        | (.error e, dir2) => (.error e, dir2)
        | (.ok _, dir2) => (.ok .unloaded, dir2)

/-! ## Timeout computation (`StateMachine.__init__`, `ParallelHandler.__init__`) -/

/-- The timeout computation of `StateMachine.__init__` (state_machine.py
lines 46-61): with no declared timeout the machine timeout is the plain sum
of the state timeouts; with a declared timeout it is kept unless the sum
exceeds it, in which case it becomes sum + 1 (with a warning). -/
def machineTimeout (stateTimeouts : List Nat) (declared : Option Nat) : Nat :=
  let s := stateTimeouts.sum
  match declared with
  | none => s
  | some t => if s > t then s + 1 else t

/-- The timeout computation of `ParallelHandler.__init__` (parallel_handler.py
lines 36-51); the Python parameter defaults to 60, `none` models an explicit
`timeout=None`. -/
def parallelTimeout (workflowTimeouts : List Nat) (timeout : Option Nat) : Nat :=
  let s := workflowTimeouts.sum
  match timeout with
  | none => s
  | some t => if t < s then s + 1 else t

/-! ## The driver (`StateMachine.run`) -/

/-- Kernel-reducible decimal rendering of a `Nat` (Python f-string `{n}`). -/
def natStrGo (fuel n : Nat) : List Char :=
  match fuel with
  | 0 => []
  | fuel + 1 =>
    if n < 10 then [Char.ofNat (48 + n)]
    else natStrGo fuel (n / 10) ++ [Char.ofNat (48 + n % 10)]

def natStr (n : Nat) : String := String.mk (natStrGo (n + 1) n)

/-- Python exceptions the embedded code raises or wraps. -/
inductive PyExc where
  | timeoutError (msg : String)
  | stateNotFoundError (msg : String)
  | stateMachineExecutionError (msg : String) (cause : PyExc)
  | valueError (msg : String)
  | exc (msg : String)
  deriving Repr, DecidableEq

/-- Python `str(e)`. -/
def PyExc.msg : PyExc → String
  | .timeoutError m => m
  | .stateNotFoundError m => m
  | .stateMachineExecutionError m _ => m
  | .valueError m => m
  | .exc m => m

/-- The execution context (`StateMachine.run` lines 71-80).  The
`machine_id` (a uuid5 of the machine name) is carried but never read by the
core and is elided; `extra` carries the `super_context` entry and any keys a
handler writes. -/
structure Ctx where
  machine_name : String
  execution_id : String
  state_name : String
  start_time : Nat
  timestamp : Option Nat
  extra : List (String × JValue)
  deriving Repr

/-- A state as the driver sees it: a name, a per-state timeout, the wall
time its handler takes (`duration`), the handler's observable behaviour, and
the value of `self.next_state` when the driver reads it after the call
(`nextAfter` of the input event — a choice mutates it per invocation, every
other state keeps it constant). -/
structure DrvState where
  name : String
  timeout : Nat
  duration : Nat
  run : JValue → Ctx → Except PyExc (JValue × Ctx)
  nextAfter : JValue → Option String

/-- Python `f"{x}"` for `x : str | None`. -/
def fmtOptStr : Option String → String
  | some s => s
  | none => "None"

/-- `machine_tree.get(n)` over the insertion-built dict (last write wins). -/
def treeGet (tree : List (String × DrvState)) (n : String) : Option DrvState :=
  tree.reverse.lookup n

/-- One iteration of the `while True` body of `StateMachine.run` past the
global-deadline check (state_machine.py lines 90-169); `recur` is the next
loop iteration.  The per-state `TimeoutError` (line 125) is raised inside
the `try`, so — like every exception reaching line 159 — it is wrapped in
`StateMachineExecutionError` by the `except` clause, whose message uses the
loop variable `next_state` (the current state's name at that point). -/
def runStep (tree : List (String × DrvState)) (now : Nat) (event : JValue)
    (step : Option DrvState) (next_state : Option String) (ctx : Ctx)
    (recur : Nat → JValue → Option DrvState → Option String → Ctx → Except PyExc JValue) :
    Except PyExc JValue :=
  match step with
  | none => .error (.stateNotFoundError ("State " ++ fmtOptStr next_state ++ " does not exist!"))
  | some st =>
    if st.duration > st.timeout then
      let m := "State " ++ ctx.state_name ++ " timed out after " ++
        natStr st.timeout ++ " seconds."
      .error (.stateMachineExecutionError
        ("Error in state " ++ fmtOptStr next_state ++ ": " ++ m) (.timeoutError m))
    else
      match st.run event ctx with
      | .error e =>
        .error (.stateMachineExecutionError
          ("Error in state " ++ fmtOptStr next_state ++ ": " ++ e.msg) e)
      | .ok (event', ctx') =>
        match st.nextAfter event with
        | none => .ok event'
        | some n =>
          recur (now + st.duration) event' (treeGet tree n) (some n)
            { ctx' with state_name := n }

/-- The `while True` loop of `StateMachine.run` (lines 82-169): the global
deadline is checked first, with a strict `now - start > timeout`; `fuel`
bounds the model's recursion. -/
def runLoop (tree : List (String × DrvState)) (timeout start : Nat) (fuel : Nat)
    (now : Nat) (event : JValue) (step : Option DrvState) (next_state : Option String)
    (ctx : Ctx) : Except PyExc JValue :=
  match fuel with
  | 0 => .error (.exc "model: loop fuel exhausted")
  | fuel + 1 =>
    if now - start > timeout then
      .error (.timeoutError ("Execution " ++ ctx.execution_id ++ " timed out after " ++
        natStr timeout ++ " seconds."))
    else
      runStep tree now event step next_state ctx
        (fun now' event' step' ns' ctx' =>
          runLoop tree timeout start fuel now' event' step' ns' ctx')

/-- The machine object after `StateMachine.__init__`. -/
structure MachineObj where
  machine_name : String
  head : DrvState
  tree : List (String × DrvState)
  timeout : Nat

/-- `StateMachine.__init__` (state_machine.py lines 34-61): an empty tree
raises `ValueError`; the head is the first state, the registry maps each
name to its state, and the timeout is `machineTimeout`. -/
def StateMachine.build (machine_name : String) (machine_tree : List DrvState)
    (timeout : Option Nat) : Except PyExc MachineObj :=
  match machine_tree with
  | [] => .error (.valueError "machine_tree must contains lambdas!")
  | head :: _ =>
    .ok { machine_name := machine_name, head := head,
          tree := machine_tree.map (fun l => (l.name, l)),
          timeout := machineTimeout (machine_tree.map (fun l => l.timeout)) timeout }

/-- `StateMachine.run` (state_machine.py lines 63-169).  The fresh uuid4
`execution_id` and the wall clock are inputs of the model: `start` is
`t.time()` at entry, and each handler advances the clock by its `duration`.
`event = entry_point_event or None` collapses a falsy entry event to
`None`. -/
def MachineObj.run (m : MachineObj) (entry : JValue) (executionId : String)
    (start : Nat) (superContext : Option (List (String × JValue))) (fuel : Nat) :
    Except PyExc JValue :=
  let event := if pyTruthy entry then entry else JValue.null
  let ctx : Ctx := {
    machine_name := m.machine_name, execution_id := executionId,
    state_name := m.head.name, start_time := start, timestamp := none,
    extra := match superContext with
      | some sc => [("super_context", JValue.obj sc)]
      | none => [] }
  runLoop m.tree m.timeout start fuel start event (some m.head) (some m.head.name) ctx

/-! ## The state handlers (`Choice`, `Lambda`, `ParallelHandler`) -/

/-- The `Choice` state object of `core/handlers/choice_handler.py`:
constructed with `next_state=None` and `timeout=1`; `jsonpath_wrapper` is the
loaded decision function (or `None` when loading never succeeded). -/
structure ChoiceStateObj where
  name : String
  next_state : Option JValue
  timeout : Nat
  jsonpath_wrapper : Option (JValue → Except String (Option JValue))

/-- `Choice.handler` (handlers/choice_handler.py lines 59-67): refresh the
context timestamp, set `self.next_state` to the decision function's output
on the incoming event, and return the event unchanged; raise when the
wrapper was never loaded.  Returns the state object after the call, the
context after the call, and the returned event or raised exception. -/
def choiceHandlerStep (s : ChoiceStateObj) (event : JValue) (ctx : Ctx) (now : Nat) :
    ChoiceStateObj × Ctx × Except String JValue :=
  let ctx' := { ctx with timestamp := some now }
  match s.jsonpath_wrapper with
  | some w =>
    match w event with
    | .ok v => ({ s with next_state := v }, ctx', .ok event)
    | .error e => (s, ctx', .error e)
  | none => (s, ctx', .error "Choice - handler - jsonpath_wrapper not loaded.")

/-- The `Lambda` state object of `core/blocks/lambda_handler.py`:
`_handler` caches the bound user handler; `loadResult` models what
`_load_lambda` (filesystem + dynamic import, external to this core) would
produce when `_handler` is still unset. -/
structure LambdaStateObj where
  name : String
  next_state : Option String
  timeout : Nat
  handlerFn : Option (JValue → Ctx → Except String (JValue × Ctx))
  loadResult : Except String (JValue → Ctx → Except String (JValue × Ctx))

/-- `Lambda.handler` (blocks/lambda_handler.py lines 49-75): refresh the
context timestamp, delegate to the cached handler, loading (and caching)
it first when unset.  No field other than `_handler` is assigned. -/
def lambdaHandlerStep (s : LambdaStateObj) (event : JValue) (ctx : Ctx) (now : Nat) :
    LambdaStateObj × Ctx × Except String JValue :=
  let ctx' := { ctx with timestamp := some now }
  match s.handlerFn with
  | some h =>
    match h event ctx' with
    | .ok (ev, c2) => (s, c2, .ok ev)
    | .error e => (s, ctx', .error e)
  | none =>
    match s.loadResult with
    | .ok h =>
      match h event ctx' with
      | .ok (ev, c2) => ({ s with handlerFn := some h }, c2, .ok ev)
      | .error e => ({ s with handlerFn := some h }, ctx', .error e)
    | .error e => (s, ctx', .error e)

/-- The `ParallelHandler` state object (parallel_handler.py lines 29-51);
its timeout is `parallelTimeout` of the sub-machine timeouts. -/
structure ParallelStateObj where
  name : String
  next_state : Option String
  timeout : Nat

/-- `ParallelHandler.__init__` over the sub-machines' timeouts. -/
def parallelBuild (name : String) (workflowTimeouts : List Nat)
    (next_state : Option String) (timeout : Option Nat) : ParallelStateObj :=
  { name := name, next_state := next_state,
    timeout := parallelTimeout workflowTimeouts timeout }

/-- Outcome of one sub-machine run: `w.run(event)`'s value or exception. -/
abbrev SubOutcome := Except PyExc JValue

/-- The per-future body of `ParallelHandler.handler` (lines 65-72): a
raised exception becomes the slot `{'error': str(e)}`, a value is stored
as-is, keyed by the sub-machine's name. -/
def slotOf (r : SubOutcome) : JValue :=
  match r with
  | .ok v => v
  | .error e => .obj [("error", .str e.msg)]

/-- `ParallelHandler.handler` (parallel_handler.py lines 53-74): the
submitted futures complete in some order `completed` (a permutation of the
workflow/outcome pairs); when every future finishes within the state's
timeout the result maps each sub-machine name to its slot, otherwise
`as_completed` raises `TimeoutError` out of the handler.  (`self` is not
mutated: in particular `next_state` is untouched.) -/
def parallelHandlerRun (s : ParallelStateObj) (completed : List (String × SubOutcome))
    (allInTime : Bool) : ParallelStateObj × Except PyExc (List (String × JValue)) :=
  if allInTime then
    (s, .ok (completed.map (fun p => (p.1, slotOf p.2))))
  else
    (s, .error (.timeoutError ("futures unfinished after " ++ natStr s.timeout ++ " seconds")))

/-! ## Helper lemmas -/

theorem beq_str_iff (v : JValue) (s : String) : (v == JValue.str s) = true ↔ v = .str s := by
  cases v <;> simp [BEq.beq, JValue.beq]

theorem getFile_setFile_self (d : CacheDir) (k : String) (v : CEntry) :
    getFile (setFile d k v) k = some v := by
  induction d with
  | nil => simp [getFile, setFile]
  | cons p rest ih =>
    by_cases h : p.1 = k
    · simp [getFile, setFile, h]
    · simp [getFile, setFile, h, ih]

theorem getFile_setFile_other (d : CacheDir) (k k' : String) (v : CEntry) (h : k' ≠ k) :
    getFile (setFile d k v) k' = getFile d k' := by
  induction d with
  | nil => simp [getFile, setFile, Ne.symm h]
  | cons p rest ih =>
    by_cases hp : p.1 = k
    · simp [getFile, setFile, hp, Ne.symm h, ih]
    · simp [getFile, setFile, hp, ih]

/-! ## Claim C1 -/

def c1state : DrvState :=
  { name := "s1", timeout := 5, duration := 0,
    run := fun e c => .ok (e, c), nextAfter := fun _ => none }

/-- C1 counterexample: a machine built from one state with timeout 5 and a
declared timeout of 5 keeps the declared 5, not `max(5, 5+1) = 6`; with no
declared timeout the machine timeout equals the sum, so the sum is not
strictly below it; the parallel handler behaves the same way. -/
theorem C1_counterexample :
    (∃ m, StateMachine.build "m" [c1state] (some 5) = .ok m ∧ m.timeout = 5) ∧
    machineTimeout [5] (some 5) ≠ max 5 (5 + 1) ∧
    ¬ (5 : Nat) < machineTimeout [5] none ∧
    (parallelBuild "p" [5] none (some 5)).timeout = 5 ∧
    parallelTimeout [5] (some 5) ≠ max 5 (5 + 1) ∧
    ¬ (5 : Nat) < parallelTimeout [5] none :=
  ⟨⟨_, rfl, rfl⟩, by decide, by decide, rfl, by decide, by decide⟩

/-- C1 (amended): with no declared timeout the effective timeout is exactly
the sum `S` of the per-state (resp. sub-machine) timeouts; with a declared
timeout `t` it is `t` when `S ≤ t` and `S + 1` (with a warning) when
`t < S`; hence `S ≤ effective` always, and the spec's `max(t, S+1)` formula
together with strictness `S < effective` holds exactly when `t ≠ S`. -/
theorem C1_amended_timeouts (sts : List Nat) (t : Nat) :
    machineTimeout sts none = sts.sum ∧
    parallelTimeout sts none = sts.sum ∧
    (sts.sum ≤ t → machineTimeout sts (some t) = t ∧ parallelTimeout sts (some t) = t) ∧
    (t < sts.sum → machineTimeout sts (some t) = sts.sum + 1 ∧
      parallelTimeout sts (some t) = sts.sum + 1) ∧
    sts.sum ≤ machineTimeout sts (some t) ∧
    sts.sum ≤ parallelTimeout sts (some t) ∧
    (t ≠ sts.sum → machineTimeout sts (some t) = max t (sts.sum + 1) ∧
      sts.sum < machineTimeout sts (some t) ∧
      parallelTimeout sts (some t) = max t (sts.sum + 1) ∧
      sts.sum < parallelTimeout sts (some t)) := by
  have hm : machineTimeout sts (some t) = if sts.sum > t then sts.sum + 1 else t := rfl
  have hp : parallelTimeout sts (some t) = if t < sts.sum then sts.sum + 1 else t := rfl
  refine ⟨rfl, rfl, fun h => ⟨?_, ?_⟩, fun h => ⟨?_, ?_⟩, ?_, ?_,
    fun h => ⟨?_, ?_, ?_, ?_⟩⟩ <;> simp only [hm, hp] <;> split_ifs <;> omega

/-- Witness for `C1_amended_timeouts` at `sts = [3]`, `t = 7`. -/
theorem C1_amended_timeouts_witness :
    machineTimeout [3] (some 7) = max 7 (3 + 1) ∧ (3 : Nat) < machineTimeout [3] (some 7) :=
  ⟨(((C1_amended_timeouts [3] 7).2.2.2.2.2.2 (by decide)).1 : _),
   ((C1_amended_timeouts [3] 7).2.2.2.2.2.2 (by decide)).2.1⟩

/-! ## Claim C2 -/

def c2timeoutState : DrvState :=
  { name := "s1", timeout := 1, duration := 2,
    run := fun e c => .ok (e, c), nextAfter := fun _ => none }

def c2failState : DrvState :=
  { name := "s1", timeout := 5, duration := 0,
    run := fun _ _ => .error (.exc "boom"), nextAfter := fun _ => none }

/-- C2 counterexample: with a handler sleeping past its state timeout the
run does not fail with a distinct state-timeout error kind — the inner
`TimeoutError` of state_machine.py line 125 is raised inside the `try` and
line 159's `except Exception` wraps it, so the run fails with
`StateMachineExecutionError`, the very same kind that wraps an ordinary
handler exception (second machine). -/
theorem C2_counterexample :
    (∃ m, StateMachine.build "m" [c2timeoutState] none = .ok m ∧
      m.run (JValue.int 1) "eid" 0 none 2 =
        .error (.stateMachineExecutionError
          "Error in state s1: State s1 timed out after 1 seconds."
          (.timeoutError "State s1 timed out after 1 seconds."))) ∧
    (∃ m2, StateMachine.build "m" [c2failState] none = .ok m2 ∧
      m2.run (JValue.int 1) "eid" 0 none 2 =
        .error (.stateMachineExecutionError "Error in state s1: boom" (.exc "boom"))) :=
  ⟨⟨_, rfl, rfl⟩, ⟨_, rfl, rfl⟩⟩

/-- C2 (amended): when a state's handler does not return within the state's
`timeout_seconds`, the driver cancels the worker and raises a `TimeoutError`
carrying the state's name; that error is raised inside the driver's `try`,
so the outer `except Exception` wraps it and the run fails with
`StateMachineExecutionError` — the same error kind used for handler
exceptions — whose message and cause carry the timed-out state's name; the
two cases are distinguished only by the wrapped cause, not by kind. -/
theorem C2_amended_wrapping (tree : List (String × DrvState)) (timeout start fuel : Nat)
    (event : JValue) (st : DrvState) (ns : Option String) (ctx : Ctx) :
    (st.duration > st.timeout →
      runLoop tree timeout start (fuel + 1) start event (some st) ns ctx =
        .error (.stateMachineExecutionError
          ("Error in state " ++ fmtOptStr ns ++ ": " ++ ("State " ++ ctx.state_name ++
            " timed out after " ++ natStr st.timeout ++ " seconds."))
          (.timeoutError ("State " ++ ctx.state_name ++ " timed out after " ++
            natStr st.timeout ++ " seconds.")))) ∧
    (∀ e, st.duration ≤ st.timeout → st.run event ctx = .error e →
      runLoop tree timeout start (fuel + 1) start event (some st) ns ctx =
        .error (.stateMachineExecutionError
          ("Error in state " ++ fmtOptStr ns ++ ": " ++ e.msg) e)) := by
  constructor
  · intro h
    simp only [runLoop, runStep]
    rw [if_neg (by omega), if_pos h]
  · intro e hle hrun
    simp only [runLoop, runStep]
    rw [if_neg (by omega), if_neg (by omega), hrun]

/-- Witness for `C2_amended_wrapping`: both branches at concrete machines. -/
theorem C2_amended_wrapping_witness :
    (runLoop [] 9 0 1 0 (JValue.int 1) (some c2timeoutState) (some "s1")
        { machine_name := "m", execution_id := "eid", state_name := "s1",
          start_time := 0, timestamp := none, extra := [] } =
      .error (.stateMachineExecutionError
        "Error in state s1: State s1 timed out after 1 seconds."
        (.timeoutError "State s1 timed out after 1 seconds."))) ∧
    (runLoop [] 9 0 1 0 (JValue.int 1) (some c2failState) (some "s1")
        { machine_name := "m", execution_id := "eid", state_name := "s1",
          start_time := 0, timestamp := none, extra := [] } =
      .error (.stateMachineExecutionError "Error in state s1: boom" (.exc "boom"))) :=
  ⟨(C2_amended_wrapping [] 9 0 0 (JValue.int 1) c2timeoutState (some "s1") _).1
      (by decide),
   (C2_amended_wrapping [] 9 0 0 (JValue.int 1) c2failState (some "s1") _).2
      (.exc "boom") (by decide) rfl⟩

/-! ## Claim C8 -/

/-- C8: the global deadline uses a strict comparison — at a boundary where
the elapsed time is exactly the machine timeout the loop proceeds into the
iteration body (`runStep`), not into `ExecutionTimeout`; and the deadline is
checked only at state boundaries: a handler whose execution crosses the
global deadline (but not its own per-state deadline) runs to completion,
its result is consumed, and the run fails with the driver's `TimeoutError`
at the next boundary. -/
theorem C8_global_deadline (tree : List (String × DrvState)) (timeout start fuel now : Nat)
    (event : JValue) (step : Option DrvState) (ns : Option String) (ctx : Ctx)
    (st : DrvState) (n : String) (event' : JValue) (ctx' : Ctx) :
    (runLoop tree timeout start (fuel + 1) (start + timeout) event step ns ctx =
      runStep tree (start + timeout) event step ns ctx
        (fun now' event'' step' ns' ctx'' =>
          runLoop tree timeout start fuel now' event'' step' ns' ctx'')) ∧
    (now - start ≤ timeout → st.duration ≤ st.timeout →
      st.run event ctx = .ok (event', ctx') → st.nextAfter event = some n →
      now + st.duration - start > timeout →
      runLoop tree timeout start (fuel + 2) now event (some st) ns ctx =
        .error (.timeoutError ("Execution " ++ ctx'.execution_id ++
          " timed out after " ++ natStr timeout ++ " seconds."))) := by
  constructor
  · simp only [runLoop]
    rw [if_neg (by omega)]
  · intro h1 h2 hrun hnext h3
    simp only [runLoop, runStep, hrun, hnext]
    rw [if_neg (show ¬ now - start > timeout by omega),
      if_neg (show ¬ st.duration > st.timeout by omega), if_pos h3]

def c8state : DrvState :=
  { name := "s1", timeout := 10, duration := 7,
    run := fun e c => .ok (e, c), nextAfter := fun _ => some "s2" }

/-- Witness for `C8_global_deadline`: at elapsed = timeout = 5 the loop
proceeds to the body; a 7-second handler under a 5-second machine timeout
completes and the run fails at the next boundary. -/
theorem C8_global_deadline_witness :
    (runLoop [] 5 0 1 5 (JValue.int 1) none (some "s2")
        { machine_name := "m", execution_id := "eid", state_name := "s1",
          start_time := 0, timestamp := none, extra := [] } =
      runStep [] 5 (JValue.int 1) none (some "s2")
        { machine_name := "m", execution_id := "eid", state_name := "s1",
          start_time := 0, timestamp := none, extra := [] }
        (fun now' event'' step' ns' ctx'' =>
          runLoop [] 5 0 0 now' event'' step' ns' ctx'')) ∧
    (runLoop [] 5 0 2 0 (JValue.int 1) (some c8state) (some "s1")
        { machine_name := "m", execution_id := "eid", state_name := "s1",
          start_time := 0, timestamp := none, extra := [] } =
      .error (.timeoutError "Execution eid timed out after 5 seconds.")) :=
  ⟨(C8_global_deadline [] 5 0 0 0 (JValue.int 1) none (some "s2")
      { machine_name := "m", execution_id := "eid", state_name := "s1",
        start_time := 0, timestamp := none, extra := [] }
      c8state "s2" (JValue.int 1)
      { machine_name := "m", execution_id := "eid", state_name := "s1",
        start_time := 0, timestamp := none, extra := [] }).1,
   (C8_global_deadline [] 5 0 0 0 (JValue.int 1) (some c8state) (some "s1")
      { machine_name := "m", execution_id := "eid", state_name := "s1",
        start_time := 0, timestamp := none, extra := [] }
      c8state "s2" (JValue.int 1)
      { machine_name := "m", execution_id := "eid", state_name := "s1",
        start_time := 0, timestamp := none, extra := [] }).2
     (by decide) (by decide) rfl rfl (by decide)⟩

/-! ## Claim C5 -/

/-- C5: a choice state's handler returns the incoming event unchanged and
sets `next_state` to the decision function's output on that event; the
handlers of the other state kinds never touch `next_state`: a lambda
state's handler leaves it unchanged in every branch (cached handler, lazy
load, failure), and so does the parallel handler. -/
theorem C5_next_state_frame (s : ChoiceStateObj) (event : JValue) (ctx : Ctx) (now : Nat)
    (w : JValue → Except String (Option JValue))
    (sl : LambdaStateObj) (sp : ParallelStateObj)
    (completed : List (String × SubOutcome)) (allInTime : Bool) :
    (s.jsonpath_wrapper = some w → ∀ v, w event = .ok v →
      (choiceHandlerStep s event ctx now).1.next_state = v ∧
      (choiceHandlerStep s event ctx now).2.2 = .ok event) ∧
    (lambdaHandlerStep sl event ctx now).1.next_state = sl.next_state ∧
    (parallelHandlerRun sp completed allInTime).1.next_state = sp.next_state := by
  refine ⟨fun hw v hv => ?_, ?_, ?_⟩
  · simp [choiceHandlerStep, hw, hv]
  · unfold lambdaHandlerStep
    cases hf : sl.handlerFn with
    | some h =>
      cases hres : h event { ctx with timestamp := some now } <;> simp [hres]
    | none =>
      cases hl : sl.loadResult with
      | error e => simp
      | ok h =>
        cases hres : h event { ctx with timestamp := some now } <;> simp [hres]
  · unfold parallelHandlerRun
    cases allInTime <;> simp

def c5choice : ChoiceStateObj :=
  { name := "c", next_state := none, timeout := 1,
    jsonpath_wrapper := some (fun _ => .ok (some (.str "next"))) }

def c5lambda : LambdaStateObj :=
  { name := "l", next_state := some "after", timeout := 60,
    handlerFn := some (fun e c => .ok (e, c)), loadResult := .error "unused" }

def c5parallel : ParallelStateObj := { name := "p", next_state := some "after", timeout := 31 }

def c5ctx : Ctx :=
  { machine_name := "m", execution_id := "eid", state_name := "c",
    start_time := 0, timestamp := none, extra := [] }

/-- Witness for `C5_next_state_frame` at concrete states and event. -/
theorem C5_next_state_frame_witness :
    ((choiceHandlerStep c5choice (JValue.int 7) c5ctx 3).1.next_state = some (.str "next") ∧
      (choiceHandlerStep c5choice (JValue.int 7) c5ctx 3).2.2 = .ok (JValue.int 7)) ∧
    (lambdaHandlerStep c5lambda (JValue.int 7) c5ctx 3).1.next_state = c5lambda.next_state ∧
    (parallelHandlerRun c5parallel [("w1", .ok (JValue.int 1))] true).1.next_state =
      c5parallel.next_state :=
  ⟨(C5_next_state_frame c5choice (JValue.int 7) c5ctx 3
      (fun _ => .ok (some (.str "next"))) c5lambda c5parallel
      [("w1", .ok (JValue.int 1))] true).1 rfl (some (.str "next")) rfl,
   (C5_next_state_frame c5choice (JValue.int 7) c5ctx 3
      (fun _ => .ok (some (.str "next"))) c5lambda c5parallel
      [("w1", .ok (JValue.int 1))] true).2⟩

/-! ## Claim C6 -/

/-- C6: when every sub-machine completes within the parallel timeout, the
handler returns a mapping whose keys are exactly the sub-machine names (as
a set, and even as a multiset up to the completion permutation); the slot of
a sub-machine that raised is `{"error": str(e)}`; a peer's outcome cannot
change another slot — each result entry is a function of that sub-machine's
own (name, outcome) pair alone. -/
theorem C6_parallel_slots (sp : ParallelStateObj)
    (workflows completed : List (String × SubOutcome))
    (hperm : completed.Perm workflows) :
    ∃ res : List (String × JValue), (parallelHandlerRun sp completed true).2 = .ok res ∧
      (res.map Prod.fst).Perm (workflows.map Prod.fst) ∧
      (∀ n : String, n ∈ res.map Prod.fst ↔ n ∈ workflows.map Prod.fst) ∧
      (∀ n e, (n, (.error e : SubOutcome)) ∈ completed →
        (n, JValue.obj [("error", .str e.msg)]) ∈ res) ∧
      (∀ n v, (n, (.ok v : SubOutcome)) ∈ completed → (n, v) ∈ res) ∧
      (∀ i : Nat, res[i]? = completed[i]?.map (fun p => (p.1, slotOf p.2))) := by
  have hkeys : ((completed.map (fun p => (p.1, slotOf p.2))).map Prod.fst).Perm
      (workflows.map Prod.fst) := by
    simpa [List.map_map, Function.comp] using hperm.map Prod.fst
  refine ⟨_, rfl, hkeys, fun n => hkeys.mem_iff, ?_, ?_, ?_⟩
  · intro n e hmem
    exact List.mem_map_of_mem (fun p => (p.1, slotOf p.2)) hmem
  · intro n v hmem
    exact List.mem_map_of_mem (fun p => (p.1, slotOf p.2)) hmem
  · intro i
    simp [parallelHandlerRun, List.getElem?_map]

/-- Witness for `C6_parallel_slots`: two sub-machines, one failing, observed
in reversed completion order. -/
theorem C6_parallel_slots_witness :
    ∃ res, (parallelHandlerRun c5parallel
        [("w2", .error (.exc "boom")), ("w1", .ok (JValue.int 1))] true).2 = .ok res ∧
      (res.map Prod.fst).Perm (["w1", "w2"] : List String) ∧
      (∀ n : String, n ∈ res.map Prod.fst ↔ n ∈ (["w1", "w2"] : List String)) ∧
      (("w2", JValue.obj [("error", .str "boom")]) ∈ res) ∧
      (("w1", JValue.int 1) ∈ res) := by
  obtain ⟨res, h1, h2, h3, h4, h5, _⟩ := C6_parallel_slots c5parallel
    [("w1", .ok (JValue.int 1)), ("w2", .error (.exc "boom"))]
    [("w2", .error (.exc "boom")), ("w1", .ok (JValue.int 1))]
    (by constructor)
  exact ⟨res, h1, by simpa using h2, by simpa using h3,
    h4 "w2" (.exc "boom") (by simp), h5 "w1" (JValue.int 1) (by simp)⟩

/-! ## Claim C7 -/

/-- C7: `jsonpath_query` returns the single match's value when exactly one
match exists, the ordered list of values when several exist, and the
absent-sentinel `'__not_matches__'` when there are none; and the compiled
`exist $.p` test — produced by the actual substitution pipeline, whose
parameter the wrapper binds to `jsonpath_query doc p` — evaluates to false
iff that evaluation returned the absent-sentinel. -/
theorem C7_jsonpath_sentinel (doc : JValue) (p : String) (v : JValue)
    (ms : List JValue) :
    queryOfMatches [] = .str "__not_matches__" ∧
    queryOfMatches [v] = v ∧
    (2 ≤ ms.length → queryOfMatches ms = .arr ms) ∧
    (∀ fields, parseDottedPath p = some fields →
      jsonpath_query doc p = .ok (queryOfMatches (jsonpathFind doc fields))) ∧
    (∀ dv, jsonpath_query doc p = .ok dv →
      (evalCond [("_p", dv)]
          (removeSingleWordParens (substExist (opSubstitution "exist $.p"))) =
        .ok false ↔ dv = .str "__not_matches__")) := by
  refine ⟨rfl, rfl, ?_, ?_, ?_⟩
  · intro h
    match ms with
    | [] => simp at h
    | [v] => simp at h
    | a :: b :: t => rfl
  · intro fields h
    simp [jsonpath_query, h]
  · intro dv _
    have e : evalCond [("_p", dv)]
        (removeSingleWordParens (substExist (opSubstitution "exist $.p"))) =
        .ok (!(dv == .str "__not_matches__")) := rfl
    rw [e]
    simp [beq_str_iff]

/-- Witness for `C7_jsonpath_sentinel` at document `{"p": 3}`, path `$.p`. -/
theorem C7_jsonpath_sentinel_witness :
    jsonpath_query (JValue.obj [("p", JValue.int 3)]) "$.p" =
      .ok (queryOfMatches (jsonpathFind (JValue.obj [("p", JValue.int 3)]) ["p"])) ∧
    (evalCond [("_p", JValue.int 3)]
        (removeSingleWordParens (substExist (opSubstitution "exist $.p"))) =
      .ok false ↔ JValue.int 3 = .str "__not_matches__") ∧
    queryOfMatches [JValue.int 1, JValue.int 2] = .arr [JValue.int 1, JValue.int 2] :=
  ⟨(C7_jsonpath_sentinel (JValue.obj [("p", JValue.int 3)]) "$.p" JValue.null
      [JValue.int 1, JValue.int 2]).2.2.2.1 ["p"] rfl,
   (C7_jsonpath_sentinel (JValue.obj [("p", JValue.int 3)]) "$.p" JValue.null
      [JValue.int 1, JValue.int 2]).2.2.2.2 (JValue.int 3) rfl,
   (C7_jsonpath_sentinel (JValue.obj [("p", JValue.int 3)]) "$.p" JValue.null
      [JValue.int 1, JValue.int 2]).2.2.1 (by decide)⟩

/-! ## Claim C3 -/

def c3states : List (String × String) :=
  [("match", "m_state"), ("no-match", "nm_state"), ("default", "d_state")]

def c3statements : List String :=
  ["when $.v gt 10 then when $.v gt 20 then when $.v gt 30 then #match else #no-match",
   "#default"]

/-- Project the decision function out of a `Choice.__init__` result. -/
def builtWrapper (r : Except String ChoiceBuilt) :
    Option (JValue → Except String (Option JValue)) :=
  match r with
  | .ok (.loaded w) => some w
  | _ => none

/-- The decision function of the C3 choice, built from an empty cache,
applied to a document. -/
def c3decision (doc : JValue) : Option (Except String (Option JValue)) :=
  (builtWrapper (choiceBuild "test-choice" c3statements c3states []).1).map
    (fun w => w doc)

set_option maxRecDepth 100000 in
/-- C3: the nested-`when` program routes `{"v":9}` and `{"v":15}` to the
state bound to `#default`, `{"v":25}` to `#no-match`'s state and `{"v":35}`
to `#match`'s state. -/
theorem C3_nested_choice :
    c3decision (JValue.obj [("v", JValue.int 9)]) = some (.ok (some (.str "d_state"))) ∧
    c3decision (JValue.obj [("v", JValue.int 15)]) = some (.ok (some (.str "d_state"))) ∧
    c3decision (JValue.obj [("v", JValue.int 25)]) = some (.ok (some (.str "nm_state"))) ∧
    c3decision (JValue.obj [("v", JValue.int 35)]) = some (.ok (some (.str "m_state"))) :=
  ⟨rfl, rfl, rfl, rfl⟩

/-! ## Claim C4 -/

theorem metadataPath_ne_cacheFilePath (name h : String) :
    metadataPath name ≠ cacheFilePath name h := by
  intro he
  have e1 : metadataPath name = (safeName name ++ "_") ++ "metadata.json" := rfl
  have e2 : cacheFilePath name h = (safeName name ++ "_") ++ (pyTake h 8 ++ ".py") := rfl
  rw [e1, e2] at he
  have hl := congrArg String.length he
  simp only [String.length_append] at hl
  have h8 : (pyTake h 8).length ≤ 8 := by
    show (h.data.take 8).length ≤ 8
    exact List.length_take_le 8 h.data
  have hm : ("metadata.json" : String).length = 13 := rfl
  have hp : (".py" : String).length = 3 := rfl
  rw [hm, hp] at hl
  omega

/-- After `_save_to_cache`, looking the same choice and hash up in the cache
is a hit on the just-written artifact path. -/
theorem get_path_from_cache_save (dir : CacheDir) (name h : String) (a : Artifact)
    (ps : List (String × String)) :
    get_path_from_cache (save_to_cache dir name h a ps).2 name h =
      some (save_to_cache dir name h a ps).1 := by
  have hne := metadataPath_ne_cacheFilePath name h
  show get_path_from_cache
      (setFile (setFile (cleanup_old_cache dir name h) (cacheFilePath name h) (.art a))
        (metadataPath name) (.meta h name (cacheFilePath name h) ps)) name h =
    some (cacheFilePath name h)
  have h1 : getFile
      (setFile (setFile (cleanup_old_cache dir name h) (cacheFilePath name h) (.art a))
        (metadataPath name) (.meta h name (cacheFilePath name h) ps))
      (cacheFilePath name h) = some (.art a) := by
    rw [getFile_setFile_other _ _ _ _ (Ne.symm hne), getFile_setFile_self]
  unfold get_path_from_cache is_cache_valid
  rw [h1, getFile_setFile_self]
  simp [h1]

set_option maxRecDepth 100000 in
/-- C4 (amended): rebuilding a choice with the *identical* `(name,
statements)` is a cache hit — the second `parse` returns the same path and
leaves the cache directory untouched; but statements that differ only in
whitespace serialize differently, hash differently (the hash is over the
raw statements; nothing normalizes them), miss the cache and recompile. -/
theorem C4_amended_cache (name : String) (conds : List String)
    (states : List (String × String)) (dir : CacheDir) (p : String) (dir1 : CacheDir) :
    (conditionParserParse name conds states dir = (.ok p, dir1) →
      conditionParserParse name conds states dir1 = (.ok p, dir1)) ∧
    generate_hash "ch" ["#c"] ≠ generate_hash "ch" ["#c "] ∧
    get_path_from_cache (conditionParserParse "ch" ["#c"] [("c", "c_state")] []).2
      "ch" (generate_hash "ch" ["#c "]) = none := by
  refine ⟨?_, by decide, by decide⟩
  intro h
  simp only [conditionParserParse] at h ⊢
  cases hg : get_path_from_cache dir name (generate_hash name conds) with
  | some q =>
    simp only [hg] at h
    obtain ⟨hp, hd⟩ := Prod.ext_iff.mp h
    simp only at hp hd
    subst hd
    injection hp with hp'
    subst hp'
    simp only [hg]
  | none =>
    simp only [hg] at h
    cases hc : constantsBuilder states ((conds.map extractConstants).flatten) with
    | error e => simp [hc] at h
    | ok constBindings =>
      cases hb : ifThenElseGo conds with
      | error e => simp [hc, hb] at h
      | ok blks =>
        simp only [hc, hb] at h
        obtain ⟨hp, hd⟩ := Prod.ext_iff.mp h
        simp only at hp hd
        subst hd
        injection hp with hp'
        subst hp'
        rw [get_path_from_cache_save]

set_option maxRecDepth 100000 in
/-- C4 counterexample: the statement lists `["#c"]` and `["#c "]` differ only
in whitespace that normalization removes, yet they produce different content
hashes (`generate_hash` hashes the raw statements), so rebuilding with the
whitespace variant is a cache miss — the lookup fails and the second build
compiles and saves a fresh artifact instead of loading the cached one. -/
theorem C4_counterexample :
    generate_hash "ch" ["#c"] ≠ generate_hash "ch" ["#c "] ∧
    (conditionParserParse "ch" ["#c"] [("c", "c_state")] []).1 =
      .ok (cacheFilePath "ch" (generate_hash "ch" ["#c"])) ∧
    get_path_from_cache (conditionParserParse "ch" ["#c"] [("c", "c_state")] []).2
      "ch" (generate_hash "ch" ["#c "]) = none ∧
    getFile (conditionParserParse "ch" ["#c"] [("c", "c_state")] []).2
      (cacheFilePath "ch" (generate_hash "ch" ["#c "])) = none ∧
    (getFile (conditionParserParse "ch" ["#c "] [("c", "c_state")]
        (conditionParserParse "ch" ["#c"] [("c", "c_state")] []).2).2
      (cacheFilePath "ch" (generate_hash "ch" ["#c "]))).isSome = true :=
  ⟨by decide, rfl, by decide, by decide, by decide⟩

set_option maxRecDepth 100000 in
/-- Witness for `C4_amended_cache`: the identical rebuild of `("ch", ["#c"])`
over the directory its first build produced is a load-only hit. -/
theorem C4_amended_cache_witness :
    conditionParserParse "ch" ["#c"] [("c", "c_state")]
        (conditionParserParse "ch" ["#c"] [("c", "c_state")] []).2 =
      (.ok (cacheFilePath "ch" (generate_hash "ch" ["#c"])),
       (conditionParserParse "ch" ["#c"] [("c", "c_state")] []).2) :=
  (C4_amended_cache "ch" ["#c"] [("c", "c_state")] [] _ _).1 rfl

/-! ## Claim C9 -/

theorem pyStarts_getPath (name x : String) :
    pyStarts (getPath name x) (safeName name ++ "_") = true := by
  show ((safeName name ++ "_").data.isPrefixOf ((safeName name ++ "_") ++ x).data) = true
  rw [String.data_append]
  exact List.isPrefixOf_iff_prefix.mpr (List.prefix_append _ _)

theorem mem_setFile_of_ne (d : CacheDir) (k : String) (v : CEntry) (f : String × CEntry)
    (hf : f ∈ d) (hne : f.1 ≠ k) : f ∈ setFile d k v := by
  induction d with
  | nil => cases hf
  | cons p rest ih =>
    by_cases hp : p.1 = k
    · simp only [setFile, beq_iff_eq, hp, if_true]
      rcases List.mem_cons.mp hf with rfl | hmem
      · exact absurd hp hne
      · exact List.mem_cons_of_mem _ hmem
    · simp only [setFile, beq_iff_eq, hp, if_false]
      rcases List.mem_cons.mp hf with rfl | hmem
      · exact List.mem_cons_self _ _
      · exact List.mem_cons_of_mem _ (ih hmem)

set_option maxRecDepth 100000 in
/-- C9 counterexample: the artifact of the choice `foo_x` (its filename
starts with `foo_x_`, hence also with `foo_`) is purged by a save for the
*different* choice `foo`: files of another choice name can be removed when
the sanitized names are prefix-related. -/
theorem C9_counterexample :
    (getFile (conditionParserParse "foo_x" ["#c"] [("c", "s1")] []).2
      (cacheFilePath "foo_x" (generate_hash "foo_x" ["#c"]))).isSome = true ∧
    getFile (cleanup_old_cache (conditionParserParse "foo_x" ["#c"] [("c", "s1")] []).2
        "foo" (generate_hash "foo" ["#d"]))
      (cacheFilePath "foo_x" (generate_hash "foo_x" ["#c"])) = none ∧
    getFile (conditionParserParse "foo" ["#d"] [("d", "s2")]
        (conditionParserParse "foo_x" ["#c"] [("c", "s1")] []).2).2
      (cacheFilePath "foo_x" (generate_hash "foo_x" ["#c"])) = none :=
  ⟨by decide, by decide, by decide⟩

/-- C9 (amended): `_cleanup_old_cache` removes exactly the files whose
names start with `safe(choice_name) + "_"`, end in `.py`, and do not start
with `safe(choice_name) + "_" + hash[:8]` — which covers every prior
artifact of the same choice with a different hash prefix, but can also
remove artifacts of a *different* choice whose sanitized name extends this
one's; only files without the `safe(choice_name) + "_"` filename prefix are
never removed, and such files survive a full `_save_to_cache` untouched. -/
theorem C9_amended_cleanup (dir : CacheDir) (name hash : String) (f : String × CEntry)
    (a : Artifact) (ps : List (String × String)) :
    (f ∈ cleanup_old_cache dir name hash ↔
      f ∈ dir ∧ ¬(pyStarts f.1 (safeName name ++ "_") = true ∧
        pyEnds f.1 ".py" = true ∧
        pyStarts f.1 (safeName name ++ "_" ++ pyTake hash 8) = false)) ∧
    (pyStarts f.1 (safeName name ++ "_") = false →
      ((f ∈ cleanup_old_cache dir name hash ↔ f ∈ dir) ∧
        (f ∈ dir → f ∈ (save_to_cache dir name hash a ps).2))) := by
  have hchar : ∀ g : String × CEntry, g ∈ cleanup_old_cache dir name hash ↔
      g ∈ dir ∧ ¬(pyStarts g.1 (safeName name ++ "_") = true ∧
        pyEnds g.1 ".py" = true ∧
        pyStarts g.1 (safeName name ++ "_" ++ pyTake hash 8) = false) := by
    intro g
    unfold cleanup_old_cache
    rw [List.mem_filter]
    constructor
    · rintro ⟨hm, hp⟩
      refine ⟨hm, ?_⟩
      intro ⟨h1, h2, h3⟩
      simp [h1, h2, h3] at hp
    · rintro ⟨hm, hp⟩
      refine ⟨hm, ?_⟩
      by_cases h1 : pyStarts g.1 (safeName name ++ "_") = true
      · by_cases h2 : pyEnds g.1 ".py" = true
        · by_cases h3 : pyStarts g.1 (safeName name ++ "_" ++ pyTake hash 8) = false
          · exact absurd ⟨h1, h2, h3⟩ hp
          · simp at h3
            simp [h1, h2, h3]
        · simp at h2
          simp [h2]
      · simp at h1
        simp [h1]
  refine ⟨hchar f, fun hns => ⟨?_, fun hmem => ?_⟩⟩
  · rw [hchar f]
    simp [hns]
  · have hne1 : f.1 ≠ cacheFilePath name hash := by
      intro he
      have := pyStarts_getPath name (pyTake hash 8 ++ ".py")
      rw [← cacheFilePath, ← he] at this
      rw [hns] at this
      cases this
    have hne2 : f.1 ≠ metadataPath name := by
      intro he
      have := pyStarts_getPath name "metadata.json"
      rw [← metadataPath, ← he] at this
      rw [hns] at this
      cases this
    have hclean : f ∈ cleanup_old_cache dir name hash := by
      rw [hchar f]
      simp [hns, hmem]
    exact mem_setFile_of_ne _ _ _ _ (mem_setFile_of_ne _ _ _ _ hclean hne1) hne2

def c9file : String × CEntry :=
  ("bar_aaaaaaaa.py", .art ⟨"bar", [], []⟩)

/-- Witness for `C9_amended_cleanup`: a `bar` artifact survives `foo`'s
cleanup and save. -/
theorem C9_amended_cleanup_witness :
    (c9file ∈ cleanup_old_cache [c9file] "foo" (generate_hash "foo" ["#d"]) ↔
      c9file ∈ [c9file]) ∧
    (c9file ∈ [c9file] →
      c9file ∈ (save_to_cache [c9file] "foo" (generate_hash "foo" ["#d"])
        ⟨"foo", [], []⟩ []).2) :=
  (C9_amended_cleanup [c9file] "foo" (generate_hash "foo" ["#d"]) c9file
    ⟨"foo", [], []⟩ []).2 (by decide)

/-! ## Claim C10 -/

/-- If the last statement fails the final-statement check, the whole
builder raises (whatever the earlier statements did). -/
theorem ifThenElseGo_error_of_last (conds : List String) (s : String)
    (hlast : conds.getLast? = some s) (hbad : ∃ m, lastCheck s = .error m) :
    ∃ e, ifThenElseGo conds = .error e := by
  induction conds with
  | nil => simp at hlast
  | cons c rest ih =>
    cases rest with
    | nil =>
      simp [List.getLast?] at hlast
      subst hlast
      obtain ⟨m, hm⟩ := hbad
      exact ⟨m, by simp [ifThenElseGo, hm]⟩
    | cons d rest' =>
      have hlast' : (d :: rest').getLast? = some s := by
        rwa [List.getLast?_cons_cons] at hlast
      obtain ⟨e, he⟩ := ih hlast'
      cases hp : processStatement (c.length + 1) c with
      | error e' => exact ⟨e', by simp [ifThenElseGo, hp]⟩
      | ok b => exact ⟨e, by simp [ifThenElseGo, hp, he]⟩

set_option maxRecDepth 100000 in
/-- C10: compiling a choice program from a cold cache raises before anything
is written whenever the final statement has exactly one `'then '` but no
`' else '`, and whenever it has more than one `'then '`; a final bare
`#tag` or quoted literal passes the check and the program compiles and
caches. -/
theorem C10_last_statement_checks (name : String) (states : List (String × String))
    (conds : List String) (s : String) :
    (conds.getLast? = some s → pyCount s "then " = 1 → hasSub s " else " = false →
      (∃ e, (conditionParserParse name conds states []).1 = .error e) ∧
      (conditionParserParse name conds states []).2 = []) ∧
    (conds.getLast? = some s → pyCount s "then " > 1 →
      (∃ e, (conditionParserParse name conds states []).1 = .error e) ∧
      (conditionParserParse name conds states []).2 = []) ∧
    (conditionParserParse "okA" ["when $.v gt 1 then #a else #b", "#dflt"]
        [("a", "sa"), ("b", "sb"), ("dflt", "sd")] []).1 =
      .ok (cacheFilePath "okA"
        (generate_hash "okA" ["when $.v gt 1 then #a else #b", "#dflt"])) ∧
    (conditionParserParse "okB" ["'lit'"] [] []).1 =
      .ok (cacheFilePath "okB" (generate_hash "okB" ["'lit'"])) := by
  have main : ∀ hbad : ∃ m, lastCheck s = .error m, conds.getLast? = some s →
      (∃ e, (conditionParserParse name conds states []).1 = .error e) ∧
      (conditionParserParse name conds states []).2 = [] := by
    intro hbad hlast
    obtain ⟨e0, he0⟩ := ifThenElseGo_error_of_last conds s hlast hbad
    have hmiss : get_path_from_cache [] name (generate_hash name conds) = none := rfl
    cases hc : constantsBuilder states ((conds.map extractConstants).flatten) with
    | error e =>
      simp only [conditionParserParse, hmiss, hc]
      exact ⟨⟨e, rfl⟩, trivial⟩
    | ok cb =>
      simp only [conditionParserParse, hmiss, hc, he0]
      exact ⟨⟨e0, rfl⟩, trivial⟩
  refine ⟨fun hlast h1 h2 =>
      main ⟨"Malformation of the last condition: " ++ s, ?_⟩ hlast,
    fun hlast h1 =>
      main ⟨"The final condition has nested conditions, without a default value: " ++ s,
        ?_⟩ hlast,
    rfl, rfl⟩
  · simp [lastCheck, h1, h2]
  · simp [lastCheck, show ¬ pyCount s "then " = 1 by omega, h1]

/-- Witness for `C10_last_statement_checks`: a final `when … then …` with no
`else`, and a final nested `when` without a default, both abort compilation
with nothing cached. -/
theorem C10_last_statement_checks_witness :
    ((∃ e, (conditionParserParse "bad1" ["when $.v gt 1 then #x"]
        [("x", "sx")] []).1 = .error e) ∧
      (conditionParserParse "bad1" ["when $.v gt 1 then #x"] [("x", "sx")] []).2 = []) ∧
    ((∃ e, (conditionParserParse "bad2"
        ["when $.v gt 1 then when $.v gt 2 then #x else #y"]
        [("x", "sx"), ("y", "sy")] []).1 = .error e) ∧
      (conditionParserParse "bad2" ["when $.v gt 1 then when $.v gt 2 then #x else #y"]
        [("x", "sx"), ("y", "sy")] []).2 = []) :=
  ⟨(C10_last_statement_checks "bad1" [("x", "sx")] ["when $.v gt 1 then #x"]
      "when $.v gt 1 then #x").1 rfl (by decide) (by decide),
   (C10_last_statement_checks "bad2" [("x", "sx"), ("y", "sy")]
      ["when $.v gt 1 then when $.v gt 2 then #x else #y"]
      "when $.v gt 1 then when $.v gt 2 then #x else #y").2.1 rfl (by decide)⟩
